import Mathlib

/-!
Verification development for the NovusDB Python driver
(src/drivers/python/novusdb.py), a thin ctypes wrapper around the NovusDB
C shared library.

The native boundary (the seven C entry points) and the Python stdlib JSON
decoder are external collaborators; they are modelled as oracle fields of a
Driver record.  Every method of the NovusDB class is embedded as a Lean
function from the connection state (the integer field self._handle) to a
MethodResult that records the Python-level outcome (normal return or raised
exception), the handle after the call, and the exact sequence of native
boundary calls the method performed.  Machine integers on the boundary
(int64 handles and ids, int status) are modelled as Int; the wrapper never
performs arithmetic on them, so no overflow is involved.  Byte-level UTF-8
encode/decode is elided (strings cross the boundary as Lean Strings); a NULL
char pointer returned by the native side is modelled as Option.none.
-/

/-- JSON values as produced by json.loads (dict, list, str, number, bool,
None).  Numbers are modelled as Int; the driver never inspects numeric
payloads, so the int/float distinction is irrelevant here. -/
inductive Json where
  | null : Json
  | bool (b : Bool) : Json
  | num (n : Int) : Json
  | str (s : String) : Json
  | arr (elems : List Json) : Json
  | obj (kvs : List (String × Json)) : Json

/-- Python exceptions the driver code can raise: RuntimeError (lines 108,
123, 140 of novusdb.py, carrying its argument), json.JSONDecodeError from
json.loads, TypeError / KeyError from the membership test and subscript on
the decoded value, and AttributeError from calling .decode on a None
returned for a char pointer. -/
inductive PyExc where
  | runtimeError (arg : Json) : PyExc
  | jsonDecodeError : PyExc
  | typeError : PyExc
  | keyError (key : String) : PyExc
  | attributeError : PyExc

/-- One call crossing the native boundary, with the arguments it passed. -/
inductive NativeCall where
  | openCall (path : String) : NativeCall
  | closeCall (handle : Int) : NativeCall
  | execCall (handle : Int) (sql : String) : NativeCall
  | insertCall (handle : Int) (collection : String) (json_str : String) : NativeCall
  | collectionsCall (handle : Int) : NativeCall
  | errorCall (handle : Int) : NativeCall
  | dumpCall (handle : Int) : NativeCall
deriving DecidableEq

/-- The native shared library: one function per C entry point declared in
novusdb.py lines 77-103.  char-pointer results are Option String, none
standing for a NULL pointer.  NovusDB_free is omitted: the driver never
calls it (lines 120-121 note ctypes frees c_char_p results itself). -/
structure NativeLib where
  NovusDB_open : String → Int
  NovusDB_close : Int → Int
  NovusDB_exec : Int → String → Option String
  NovusDB_insert_json : Int → String → String → Int
  NovusDB_collections : Int → Option String
  NovusDB_error : Int → Option String
  NovusDB_dump : Int → Option String

/-- The external collaborators a connection works against: the loaded
shared library and the Python stdlib decoder json.loads, modelled as a
partial function (none = the string is not valid JSON, in which case
json.loads raises json.JSONDecodeError). -/
structure Driver where
  lib : NativeLib
  jsonLoads : String → Option Json

/-- Outcome of one Python method call on a connection: the returned value
or raised exception, the value of self._handle after the call, and the
native boundary calls performed, in order. -/
structure MethodResult (α : Type) where
  result : Except PyExc α
  handle : Int
  calls : List NativeCall

/-- Python membership test key in value, as evaluated on a json.loads
result: key lookup on a dict, element equality on a list (only str
elements can equal a str), substring test on a str, TypeError otherwise. -/
def pyIn (key : String) : Json → Except PyExc Bool
  | .obj kvs => .ok (kvs.find? (fun kv => kv.1 == key)).isSome
  | .arr elems => .ok (elems.any (fun e => match e with | .str s => s == key | _ => false))
  | .str s => .ok (s.containsSubstr key)
  | _ => .error .typeError

/-- Python subscript value[key] on a json.loads result: dict lookup
(KeyError when absent), TypeError on any other value. -/
def pyGet (key : String) : Json → Except PyExc Json
  | .obj kvs =>
    match kvs.find? (fun kv => kv.1 == key) with
    | some kv => .ok kv.2
    | none => .error (.keyError key)
  | _ => .error .typeError

/-- NovusDB.__init__, lines 105-108 (the open part; library discovery and
ctypes signature setup are configuration, not behaviour): store the handle
returned by NovusDB_open and raise RuntimeError when it is zero. -/
def NovusDB.init (d : Driver) (path : String) : MethodResult Int :=
  let handle := d.lib.NovusDB_open path
  if handle = 0 then
    { result := .error (.runtimeError (.str ("Failed to open database: " ++ path))),
      handle := 0,
      calls := [.openCall path] }
  else
    { result := .ok handle, handle := handle, calls := [.openCall path] }

/-- NovusDB.exec, lines 110-124: call NovusDB_exec on the current handle,
json.loads the returned string (AttributeError if the pointer was NULL,
JSONDecodeError if malformed), raise RuntimeError(result["error"]) when the
membership test "error" in result holds, otherwise return the decoded value
unchanged. -/
def NovusDB.exec (d : Driver) (h : Int) (sql : String) : MethodResult Json :=
  { result :=
      match d.lib.NovusDB_exec h sql with
      | none => .error .attributeError
      | some raw =>
        match d.jsonLoads raw with
        | none => .error .jsonDecodeError
        | some result =>
          match pyIn "error" result with
          | .error e => .error e
          | .ok true =>
            match pyGet "error" result with
            | .ok v => .error (.runtimeError v)
            | .error e => .error e
          | .ok false => .ok result,
    handle := h,
    calls := [.execCall h sql] }

/-- NovusDB.last_error, lines 148-151: NovusDB_error decoded to a string,
with the empty string substituted when the pointer is NULL (or the bytes
are empty, which decodes to the empty string anyway). -/
def NovusDB.last_error (d : Driver) (h : Int) : MethodResult String :=
  { result := .ok (match d.lib.NovusDB_error h with | some raw => raw | none => ""),
    handle := h,
    calls := [.errorCall h] }

/-- NovusDB.insert_json, lines 126-141: call NovusDB_insert_json; on a
negative id fetch err = self.last_error() (one NovusDB_error call, NULL
decoded to the empty string) and raise RuntimeError(err or
"insert_json failed") - the or supplies the fallback exactly when err is
the empty string; on a non-negative id return it. -/
def NovusDB.insert_json (d : Driver) (h : Int) (collection json_str : String) :
    MethodResult Int :=
  let doc_id := d.lib.NovusDB_insert_json h collection json_str
  if doc_id < 0 then
    let err := match d.lib.NovusDB_error h with | some raw => raw | none => ""
    { result := .error (.runtimeError (.str (if err = "" then "insert_json failed" else err))),
      handle := h,
      calls := [.insertCall h collection json_str, .errorCall h] }
  else
    { result := .ok doc_id, handle := h, calls := [.insertCall h collection json_str] }

/-- NovusDB.collections, lines 143-146: NovusDB_collections decoded by
json.loads, the decoded value returned with no further inspection. -/
def NovusDB.collections (d : Driver) (h : Int) : MethodResult Json :=
  { result :=
      match d.lib.NovusDB_collections h with
      | none => .error .attributeError
      | some raw =>
        match d.jsonLoads raw with
        | none => .error .jsonDecodeError
        | some result => .ok result,
    handle := h,
    calls := [.collectionsCall h] }

/-- NovusDB.dump, lines 153-156: NovusDB_dump decoded to a string, the
empty string substituted when the pointer is NULL. -/
def NovusDB.dump (d : Driver) (h : Int) : MethodResult String :=
  { result := .ok (match d.lib.NovusDB_dump h with | some raw => raw | none => ""),
    handle := h,
    calls := [.dumpCall h] }

/-- NovusDB.close, lines 158-162: when self._handle is truthy (non-zero),
call NovusDB_close and zero the handle; the int status NovusDB_close
returns is bound nowhere and thus ignored.  When the handle is already
zero the body is skipped entirely. -/
def NovusDB.close (d : Driver) (h : Int) : MethodResult Unit :=
  if h ≠ 0 then
    let _status := d.lib.NovusDB_close h
    { result := .ok (), handle := 0, calls := [.closeCall h] }
  else
    { result := .ok (), handle := h, calls := [] }

/-- NovusDB.__exit__, lines 167-168: delegates to close, ignoring the
exception-info arguments. -/
def NovusDB.exit (d : Driver) (h : Int) : MethodResult Unit :=
  NovusDB.close d h

/-- NovusDB.__del__, lines 170-171: delegates to close. -/
def NovusDB.del (d : Driver) (h : Int) : MethodResult Unit :=
  NovusDB.close d h

/-- The Open-state predicate the code itself uses: line 160 tests the
truthiness of self._handle, i.e. non-zero. -/
def NovusDB.isOpen (h : Int) : Bool :=
  h != 0

/-- Iterate close n times from handle h, returning the final handle and
the concatenated native call trace of all invocations. -/
def closeTrace (d : Driver) : Nat → Int → Int × List NativeCall
  | 0, h => (h, [])
  | n + 1, h =>
    let r := NovusDB.close d h
    let rest := closeTrace d n r.handle
    (rest.1, r.calls ++ rest.2)

/-- The operations available on an existing connection (everything except
construction), with the arguments each takes. -/
inductive Op where
  | execOp (sql : String) : Op
  | insertOp (collection json_str : String) : Op
  | collectionsOp : Op
  | lastErrorOp : Op
  | dumpOp : Op
  | closeOp : Op
deriving DecidableEq

/-- The handle stored in the connection after running one operation. -/
def applyOp (d : Driver) (op : Op) (h : Int) : Int :=
  match op with
  | .execOp sql => (NovusDB.exec d h sql).handle
  | .insertOp c j => (NovusDB.insert_json d h c j).handle
  | .collectionsOp => (NovusDB.collections d h).handle
  | .lastErrorOp => (NovusDB.last_error d h).handle
  | .dumpOp => (NovusDB.dump d h).handle
  | .closeOp => (NovusDB.close d h).handle

/-- A stub native library for concrete evaluations: open yields handle 7,
close reports status 0, exec returns the raw envelope string ENVOK
(decoded by loadsStub to an empty JSON object), insert_json yields id 1,
error reports the text boom. -/
def libOk : NativeLib where
  NovusDB_open := fun _ => 7
  NovusDB_close := fun _ => 0
  NovusDB_exec := fun _ _ => some "ENVOK"
  NovusDB_insert_json := fun _ _ _ => 1
  NovusDB_collections := fun _ => some "ENVARR"
  NovusDB_error := fun _ => some "boom"
  NovusDB_dump := fun _ => some "DUMPTEXT"

/-- A stub json.loads: four fixed raw strings decode to fixed values,
everything else is malformed. -/
def loadsStub : String → Option Json := fun s =>
  if s = "ENVOK" then some (.obj [])
  else if s = "ENVERR" then some (.obj [("error", .str "boom")])
  else if s = "ENVARR" then some (.arr [])
  else if s = "ENVFULL" then
    some (.obj [("docs", .arr []), ("rows_affected", .num 0), ("last_insert_id", .num 0)])
  else none

/-- The stub driver used by witnesses and counterexamples. -/
def driverOk : Driver where
  lib := libOk
  jsonLoads := loadsStub

/-- Variant whose exec reports the failure envelope ENVERR. -/
def driverErr : Driver where
  lib := { libOk with NovusDB_exec := fun _ _ => some "ENVERR" }
  jsonLoads := loadsStub

/-- Variant whose exec returns a malformed (undecodable) envelope. -/
def driverBad : Driver where
  lib := { libOk with NovusDB_exec := fun _ _ => some "NOTJSON" }
  jsonLoads := loadsStub

/-- Variant whose native close reports the failure status 1. -/
def driverCloseFail : Driver where
  lib := { libOk with NovusDB_close := fun _ => 1 }
  jsonLoads := loadsStub

/-- Variant whose insert_json reports failure (-1) while the engine error
text is empty. -/
def driverInsertNegEmpty : Driver where
  lib := { libOk with NovusDB_insert_json := fun _ _ _ => -1,
                      NovusDB_error := fun _ => some "" }
  jsonLoads := loadsStub

/-- Variant whose insert_json reports failure (-1) with the engine error
text kaput. -/
def driverInsertNegMsg : Driver where
  lib := { libOk with NovusDB_insert_json := fun _ _ _ => -1,
                      NovusDB_error := fun _ => some "kaput" }
  jsonLoads := loadsStub

/-- Variant whose error and dump calls return a NULL pointer. -/
def driverNull : Driver where
  lib := { libOk with NovusDB_error := fun _ => none,
                      NovusDB_dump := fun _ => none }
  jsonLoads := loadsStub

/-- Variant whose native open returns the zero handle. -/
def driverOpenFail : Driver where
  lib := { libOk with NovusDB_open := fun _ => 0 }
  jsonLoads := loadsStub

/-- Variant on which both exec (failure envelope) and insert_json
(negative id, engine error text kaput) fail. -/
def driverBothFail : Driver where
  lib := { libOk with NovusDB_exec := fun _ _ => some "ENVERR",
                      NovusDB_insert_json := fun _ _ _ => -1,
                      NovusDB_error := fun _ => some "kaput" }
  jsonLoads := loadsStub

/-- Every branch of insert_json leaves the stored handle unchanged. -/
theorem insert_json_handle (d : Driver) (h : Int) (c j : String) :
    (NovusDB.insert_json d h c j).handle = h := by
  by_cases hn : d.lib.NovusDB_insert_json h c j < 0 <;>
    simp [NovusDB.insert_json, hn]

/-- close always stores handle zero: either the body runs and assigns 0,
or the handle was already 0 and is kept. -/
theorem close_handle (d : Driver) (h : Int) : (NovusDB.close d h).handle = 0 := by
  by_cases hz : h = 0
  · subst hz; simp [NovusDB.close]
  · simp [NovusDB.close, hz]

/-- C1 counterexample: on a Closed connection (handle 0), exec does perform
a native boundary call (passing handle 0) and raises no use-after-close
error: with a stub library it plainly succeeds.  This falsifies the claim
that every operation other than open and close fails with
UseAfterCloseError and performs no native call. -/
theorem closed_exec_performs_native_call :
    (NovusDB.exec driverOk 0 "SELECT 1").calls = [.execCall 0 "SELECT 1"] ∧
    (NovusDB.exec driverOk 0 "SELECT 1").calls ≠ [] ∧
    (NovusDB.exec driverOk 0 "SELECT 1").result = .ok (.obj []) := by
  refine ⟨rfl, ?_, rfl⟩
  decide

/-- C1 (amended): the driver has no use-after-close guard.  Every
operation invoked on a Closed connection (handle 0) performs its native
boundary call with handle 0 - exec, collections, last_error and dump make
exactly their own call, and insert_json's first call is its own - and no
UseAfterCloseError exists; the outcome is whatever the native response
yields. -/
theorem closed_ops_pass_zero_handle (d : Driver) (sql collection json_str : String) :
    (NovusDB.exec d 0 sql).calls = [.execCall 0 sql] ∧
    (NovusDB.insert_json d 0 collection json_str).calls.head? =
      some (.insertCall 0 collection json_str) ∧
    (NovusDB.collections d 0).calls = [.collectionsCall 0] ∧
    (NovusDB.last_error d 0).calls = [.errorCall 0] ∧
    (NovusDB.dump d 0).calls = [.dumpCall 0] := by
  refine ⟨rfl, ?_, rfl, rfl, rfl⟩
  by_cases hn : d.lib.NovusDB_insert_json 0 collection json_str < 0 <;>
    simp [NovusDB.insert_json, hn]

/-- closeTrace is inert on an already-closed connection: iterating close
from handle 0 keeps the handle 0 and performs no native call. -/
theorem closeTrace_closed (d : Driver) : ∀ n, closeTrace d n 0 = (0, []) := by
  intro n
  induction n with
  | zero => rfl
  | succ n ih => simp [closeTrace, NovusDB.close, ih]

/-- C2: close is idempotent.  From an open connection (handle non-zero),
any sequence of one or more close invocations performs the native release
call exactly once - on the first invocation, with the original handle -
and ends with handle 0; every close invocation, first or subsequent,
returns normally (never raises); scoped exit and finalization delegate to
the very same close. -/
theorem close_idempotent_single_release (d : Driver) (h : Int) (n : Nat)
    (hopen : h ≠ 0) :
    closeTrace d (n + 1) h = (0, [NativeCall.closeCall h]) ∧
    (∀ h2, (NovusDB.close d h2).result = .ok ()) ∧
    NovusDB.exit d h = NovusDB.close d h ∧
    NovusDB.del d h = NovusDB.close d h := by
  refine ⟨?_, fun h2 => ?_, rfl, rfl⟩
  · simp [closeTrace, NovusDB.close, hopen, closeTrace_closed]
  · by_cases hz : h2 = 0
    · subst hz; simp [NovusDB.close]
    · simp [NovusDB.close, hz]

/-- C2 witness: three successive close invocations on the stub driver from
handle 7 perform exactly one native release. -/
theorem close_idempotent_single_release_witness :
    closeTrace driverOk 3 7 = (0, [NativeCall.closeCall 7]) ∧
    (∀ h2, (NovusDB.close driverOk h2).result = .ok ()) ∧
    NovusDB.exit driverOk 7 = NovusDB.close driverOk 7 ∧
    NovusDB.del driverOk 7 = NovusDB.close driverOk 7 :=
  close_idempotent_single_release driverOk 7 2 (by decide)

/-- C3: the handle invariant.  Every operation other than close leaves the
stored handle unchanged; close always leaves it zero; hence from handle 0
every operation leaves it 0 (closedness is permanent), and from a non-zero
handle every non-close operation keeps the connection Open in the sense of
the code's own test (line 160: truthiness of self._handle). -/
theorem handle_invariant (d : Driver) (op : Op) (h : Int) :
    (op ≠ Op.closeOp → applyOp d op h = h) ∧
    applyOp d Op.closeOp h = 0 ∧
    applyOp d op 0 = 0 ∧
    (h ≠ 0 → op ≠ Op.closeOp → NovusDB.isOpen (applyOp d op h) = true) := by
  have hA : ∀ h2 : Int, op ≠ Op.closeOp → applyOp d op h2 = h2 := by
    intro h2 hop
    cases op with
    | execOp sql => rfl
    | insertOp c j => exact insert_json_handle d h2 c j
    | collectionsOp => rfl
    | lastErrorOp => rfl
    | dumpOp => rfl
    | closeOp => exact absurd rfl hop
  refine ⟨hA h, close_handle d h, ?_, ?_⟩
  · by_cases hc : op = Op.closeOp
    · subst hc; exact close_handle d 0
    · exact hA 0 hc
  · intro hz hop
    rw [hA h hop]
    simp [NovusDB.isOpen, hz]

/-- C3 witness: the invariant evaluated on the stub driver with the exec
operation at handles 7 and 0. -/
theorem handle_invariant_witness :
    applyOp driverOk (Op.execOp "SELECT 1") 7 = 7 ∧
    applyOp driverOk Op.closeOp 7 = 0 ∧
    applyOp driverOk (Op.execOp "SELECT 1") 0 = 0 ∧
    NovusDB.isOpen (applyOp driverOk (Op.execOp "SELECT 1") 7) = true := by
  have H := handle_invariant driverOk (Op.execOp "SELECT 1") 7
  exact ⟨H.1 (by decide), H.2.1, H.2.2.1, H.2.2.2 (by decide) (by decide)⟩

/-- C4: for an open connection, when the native exec response decodes to an
object, exec raises the engine-reported error (RuntimeError, the code's
QueryError) exactly when the object has an error key, carrying the value
under that key unchanged; without an error key it returns the decoded
object and raises nothing. -/
theorem exec_failure_envelope_raises (d : Driver) (h : Int) (sql s : String)
    (kvs : List (String × Json)) (_hopen : h ≠ 0)
    (hraw : d.lib.NovusDB_exec h sql = some s)
    (hdec : d.jsonLoads s = some (.obj kvs)) :
    (∀ p : String × Json, kvs.find? (fun kv => kv.1 == "error") = some p →
        (NovusDB.exec d h sql).result = .error (.runtimeError p.2)) ∧
    (kvs.find? (fun kv => kv.1 == "error") = none →
        (NovusDB.exec d h sql).result = .ok (.obj kvs)) := by
  constructor
  · intro p hp
    simp [NovusDB.exec, hraw, hdec, pyIn, pyGet, hp]
  · intro hn
    simp [NovusDB.exec, hraw, hdec, pyIn, pyGet, hn]

/-- C4 witness: on the stub drivers, a failure envelope raises the engine
message boom unchanged and a non-error envelope is returned as success. -/
theorem exec_failure_envelope_raises_witness :
    (NovusDB.exec driverErr 7 "BAD SQL").result = .error (.runtimeError (.str "boom")) ∧
    (NovusDB.exec driverOk 7 "SELECT 1").result = .ok (.obj []) := by
  constructor
  · exact (exec_failure_envelope_raises driverErr 7 "BAD SQL" "ENVERR"
      [("error", .str "boom")] (by decide) rfl rfl).1 ("error", .str "boom") rfl
  · exact (exec_failure_envelope_raises driverOk 7 "SELECT 1" "ENVOK" []
      (by decide) rfl rfl).2 rfl

/-- C5 counterexample: the envelope decodes to the empty object - no error
key, and all three success fields (docs, rows_affected, last_insert_id)
missing - yet exec raises no ProtocolError: it returns the object as a
success.  The code performs no validation of the success fields. -/
theorem exec_missing_fields_no_protocol_error :
    driverOk.jsonLoads "ENVOK" = some (.obj []) ∧
    (NovusDB.exec driverOk 7 "SELECT 1").result = .ok (.obj []) :=
  ⟨rfl, rfl⟩

/-- C5 (amended): a malformed envelope does raise a dedicated decode error
(json.JSONDecodeError), distinct from the engine-reported RuntimeError;
but an envelope that decodes to an object without an error key is returned
as-is with no validation of the three success fields whatsoever. -/
theorem exec_decode_behavior (d : Driver) (h : Int) (sql s : String)
    (hraw : d.lib.NovusDB_exec h sql = some s) :
    (d.jsonLoads s = none → (NovusDB.exec d h sql).result = .error .jsonDecodeError) ∧
    (∀ kvs : List (String × Json), d.jsonLoads s = some (.obj kvs) →
        kvs.find? (fun kv => kv.1 == "error") = none →
        (NovusDB.exec d h sql).result = .ok (.obj kvs)) := by
  constructor
  · intro hd
    simp [NovusDB.exec, hraw, hd]
  · intro kvs hd hn
    simp [NovusDB.exec, hraw, hd, pyIn, pyGet, hn]

/-- C5 witness: the malformed envelope NOTJSON raises the decode error;
the field-free object envelope is returned unvalidated. -/
theorem exec_decode_behavior_witness :
    (NovusDB.exec driverBad 7 "SELECT 2").result = .error .jsonDecodeError ∧
    (NovusDB.exec driverOk 7 "SELECT 2").result = .ok (.obj []) := by
  constructor
  · exact (exec_decode_behavior driverBad 7 "SELECT 2" "NOTJSON" rfl).1 rfl
  · exact (exec_decode_behavior driverOk 7 "SELECT 2" "ENVOK" rfl).2 [] rfl rfl

/-- C6 counterexample: with a native close reporting failure status 1,
close still returns normally - no CloseError (or any exception) is
surfaced to the caller, falsifying the claim that the failure is
surfaced.  (The Closed transition itself does happen.) -/
theorem close_failure_status_not_surfaced :
    driverCloseFail.lib.NovusDB_close 5 = 1 ∧
    (NovusDB.close driverCloseFail 5).result = .ok () ∧
    (NovusDB.close driverCloseFail 5).handle = 0 :=
  ⟨rfl, rfl, rfl⟩

/-- C6 (amended): close on an open connection transitions to Closed
(handle zero) and performs the one native release call, but the int status
the native call returns is ignored: close returns normally for every
possible native library, a failure status included - nothing is surfaced. -/
theorem close_ignores_native_status (d : Driver) (h : Int) (hopen : h ≠ 0) :
    (NovusDB.close d h).handle = 0 ∧
    (NovusDB.close d h).result = .ok () ∧
    (NovusDB.close d h).calls = [NativeCall.closeCall h] := by
  simp [NovusDB.close, hopen]

/-- C6 witness: the amended behaviour evaluated on the driver whose native
close reports status 1. -/
theorem close_ignores_native_status_witness :
    (NovusDB.close driverCloseFail 5).handle = 0 ∧
    (NovusDB.close driverCloseFail 5).result = .ok () ∧
    (NovusDB.close driverCloseFail 5).calls = [NativeCall.closeCall 5] :=
  close_ignores_native_status driverCloseFail 5 (by decide)

/-- C7 counterexample: insert_json fails (negative id) while the engine's
error call reports the empty string; the raised message is the fixed
fallback text insert_json failed, not the (empty) message obtained from
the error call - falsifying the claim that the raised error carries the
engine's message. -/
theorem insert_json_fallback_message_cex :
    driverInsertNegEmpty.lib.NovusDB_insert_json 5 "users" "DOC" = -1 ∧
    driverInsertNegEmpty.lib.NovusDB_error 5 = some "" ∧
    (NovusDB.insert_json driverInsertNegEmpty 5 "users" "DOC").result =
      .error (.runtimeError (.str "insert_json failed")) ∧
    ("insert_json failed" : String) ≠ "" :=
  ⟨rfl, rfl, rfl, by decide⟩

/-- C7 (amended): insert_json raises exactly when the native call returns
a negative id; the raised message is the engine's error text (obtained by
one native error call, NULL decoded to the empty string) when that text is
non-empty, and the fixed fallback insert_json failed when it is empty; a
non-negative id is returned unchanged. -/
theorem insert_json_error_behavior (d : Driver) (h : Int)
    (collection json_str : String) :
    (0 ≤ d.lib.NovusDB_insert_json h collection json_str →
      (NovusDB.insert_json d h collection json_str).result =
        .ok (d.lib.NovusDB_insert_json h collection json_str)) ∧
    (d.lib.NovusDB_insert_json h collection json_str < 0 →
      (NovusDB.insert_json d h collection json_str).result =
        .error (.runtimeError (.str
          (if (match d.lib.NovusDB_error h with | some raw => raw | none => "") = ""
           then "insert_json failed"
           else match d.lib.NovusDB_error h with | some raw => raw | none => ""))) ∧
      (NovusDB.insert_json d h collection json_str).calls =
        [.insertCall h collection json_str, .errorCall h]) := by
  constructor
  · intro hge
    have hn : ¬ d.lib.NovusDB_insert_json h collection json_str < 0 := not_lt.mpr hge
    simp [NovusDB.insert_json, hn]
  · intro hlt
    simp [NovusDB.insert_json, hlt]

/-- C7 witness: a successful insert returns the id 1 unchanged; a failing
insert with engine error text kaput raises that text and performs the
insert call followed by the error call. -/
theorem insert_json_error_behavior_witness :
    (NovusDB.insert_json driverOk 7 "users" "DOC").result = .ok 1 ∧
    (NovusDB.insert_json driverInsertNegMsg 5 "users" "DOC").result =
      .error (.runtimeError (.str "kaput")) ∧
    (NovusDB.insert_json driverInsertNegMsg 5 "users" "DOC").calls =
      [.insertCall 5 "users" "DOC", .errorCall 5] := by
  refine ⟨?_, ?_, ?_⟩
  · exact (insert_json_error_behavior driverOk 7 "users" "DOC").1 (by decide)
  · exact ((insert_json_error_behavior driverInsertNegMsg 5 "users" "DOC").2 (by decide)).1
  · exact ((insert_json_error_behavior driverInsertNegMsg 5 "users" "DOC").2 (by decide)).2

/-- C8: the constructor raises RuntimeError (the code's OpenError) exactly
when the native open returns the zero handle; on a non-zero handle the
connection stores that handle and is Open in the sense of the code's own
truthiness test. -/
theorem open_zero_handle_raises (d : Driver) (path : String) :
    (d.lib.NovusDB_open path = 0 →
      (NovusDB.init d path).result =
        .error (.runtimeError (.str ("Failed to open database: " ++ path))) ∧
      (NovusDB.init d path).handle = 0) ∧
    (d.lib.NovusDB_open path ≠ 0 →
      (NovusDB.init d path).result = .ok (d.lib.NovusDB_open path) ∧
      (NovusDB.init d path).handle = d.lib.NovusDB_open path ∧
      NovusDB.isOpen (NovusDB.init d path).handle = true) := by
  constructor
  · intro hz
    constructor <;> simp [NovusDB.init, hz]
  · intro hnz
    refine ⟨?_, ?_, ?_⟩ <;> simp [NovusDB.init, NovusDB.isOpen, hnz]

/-- C8 witness: a zero native handle raises with the path in the message;
handle 7 yields an Open connection storing 7. -/
theorem open_zero_handle_raises_witness :
    ((NovusDB.init driverOpenFail "t.db").result =
        .error (.runtimeError (.str "Failed to open database: t.db")) ∧
      (NovusDB.init driverOpenFail "t.db").handle = 0) ∧
    ((NovusDB.init driverOk "t.db").result = .ok 7 ∧
      (NovusDB.init driverOk "t.db").handle = 7 ∧
      NovusDB.isOpen (NovusDB.init driverOk "t.db").handle = true) := by
  constructor
  · exact (open_zero_handle_raises driverOpenFail "t.db").1 rfl
  · exact (open_zero_handle_raises driverOk "t.db").2 (by decide)

/-- C9: a failing exec or failing insert_json (raised exception) leaves
the stored handle unchanged and the connection Open: neither method writes
self._handle on any path. -/
theorem failed_call_preserves_handle (d : Driver) (h : Int)
    (sql collection json_str : String) (hopen : h ≠ 0) :
    (∀ e, (NovusDB.exec d h sql).result = .error e →
        (NovusDB.exec d h sql).handle = h ∧
        NovusDB.isOpen (NovusDB.exec d h sql).handle = true) ∧
    (∀ e, (NovusDB.insert_json d h collection json_str).result = .error e →
        (NovusDB.insert_json d h collection json_str).handle = h ∧
        NovusDB.isOpen (NovusDB.insert_json d h collection json_str).handle = true) := by
  constructor
  · intro e _
    exact ⟨rfl, by simp [NovusDB.exec, NovusDB.isOpen, hopen]⟩
  · intro e _
    refine ⟨insert_json_handle d h collection json_str, ?_⟩
    rw [insert_json_handle d h collection json_str]
    simp [NovusDB.isOpen, hopen]

/-- C9 witness: on a driver where exec reports a failure envelope and
insert_json reports a negative id, both failures leave handle 7 in place
and the connection Open. -/
theorem failed_call_preserves_handle_witness :
    ((NovusDB.exec driverBothFail 7 "BAD").handle = 7 ∧
      NovusDB.isOpen (NovusDB.exec driverBothFail 7 "BAD").handle = true) ∧
    ((NovusDB.insert_json driverBothFail 7 "users" "DOC").handle = 7 ∧
      NovusDB.isOpen (NovusDB.insert_json driverBothFail 7 "users" "DOC").handle = true) := by
  have H := failed_call_preserves_handle driverBothFail 7 "BAD" "users" "DOC" (by decide)
  exact ⟨H.1 (.runtimeError (.str "boom")) rfl, H.2 (.runtimeError (.str "kaput")) rfl⟩

/-- C10: when the native error or dump call returns a NULL pointer, the
corresponding method returns the empty string instead of raising; the null
branch never surfaces as a failure. -/
theorem null_pointer_yields_empty_string (d : Driver) (h : Int)
    (herr : d.lib.NovusDB_error h = none) (hdump : d.lib.NovusDB_dump h = none) :
    (NovusDB.last_error d h).result = .ok "" ∧
    (NovusDB.dump d h).result = .ok "" := by
  constructor
  · simp [NovusDB.last_error, herr]
  · simp [NovusDB.dump, hdump]

/-- C10 witness: the null-returning stub driver yields the empty string
from both last_error and dump. -/
theorem null_pointer_yields_empty_string_witness :
    (NovusDB.last_error driverNull 7).result = .ok "" ∧
    (NovusDB.dump driverNull 7).result = .ok "" :=
  null_pointer_yields_empty_string driverNull 7 rfl rfl
